import Mathlib

/-!
Shallow embedding of the WaveRider IDE client's agent-task orchestration and
file-tree operations, translated from
`src/components/ide/waverider-ide-new.tsx` (the active `WaveRiderIDE`
component, lines 735 onward) and `src/store/waverider-store.ts`.

Conventions of the embedding:
* React `useState` fields of the component are gathered into one `IDEState`
  record; each event handler becomes a pure state transformer.
* `addToTerminal` prepends a wall-clock timestamp; real time is passed in as
  an explicit `now : String` argument.
* Network calls (`fetch`) are parameterised by the collaborator's answer: a
  `FetchOutcome` distinguishes an ok response, a non-ok response (the code's
  `!response.ok` branch) and a thrown exception (the code's `catch` branch).
* The external file-storage collaborator (the backend behind `/api/files`,
  out of scope per the spec) is modelled from the spec's interface in §6 as
  an ordered association list of `(path, content)` pairs: `write` upserts,
  `delete` removes, `read` looks up, `list` returns paths in order.
-/

namespace WaveRider

/-- Task lifecycle states, from the `AgentTask` interface (`status:
'pending' | 'running' | 'completed' | 'failed'`). -/
inductive TaskStatus where
  | pending
  | running
  | completed
  | failed
deriving DecidableEq, Repr

/-- `completed` and `failed` are the terminal states (spec §4.1 glossary). -/
def TaskStatus.isTerminal : TaskStatus → Bool
  | .completed => true
  | .failed => true
  | _ => false

/-- A progress event as delivered in `data.data` of an `agent_progress`
WebSocket message: `{session_id, progress, status, message, timestamp}`.
The numeric percentage field is named `progress` in the source. -/
structure ProgressEvent where
  session_id : String
  progress : Int
  status : String
  message : String
  timestamp : String
deriving DecidableEq, Repr

/-- An agent task record, from the `AgentTask` interface of the component.
`handleAgentProgress` stores the raw event object in the `progress` field
(`{ ...task, progress: data.data }`), so the stored progress has the shape of
`ProgressEvent`. The `result?: any` payload is modelled as an opaque
optional string. -/
structure AgentTask where
  session_id : String
  task : String
  agent_type : String
  status : TaskStatus
  progress : Option ProgressEvent
  result : Option String
  created_at : String
  completed_at : Option String
deriving DecidableEq, Repr

/-- Outcome of a `fetch` call as the component observes it: an ok response
carrying a value, a non-ok response, or a thrown exception. -/
inductive FetchOutcome (α : Type) where
  | ok (val : α)
  | notOk
  | exn
deriving DecidableEq, Repr

/-- A request issued to the external file-storage collaborator
(`operation: 'read' | 'write' | 'delete'` in the `/api/files` body). -/
inductive StorageOp where
  | read (path : String)
  | write (path : String) (content : String)
  | delete (path : String)
deriving DecidableEq, Repr

/-- Modelled from the spec: the external file-storage collaborator's state
(§6: `write(projectId, path, content) → Ack`, `delete → Ack`,
`read → content | NotFound`, `list → ordered sequence`), which is not part
of this repository's frontend sources. An ordered association list of
`(path, content)` pairs, one entry per path. -/
abbrev Storage : Type := List (String × String)

/-- Modelled from the spec: `read(path) → content | NotFound`. -/
def storageRead : Storage → String → Option String
  | [], _ => none
  | e :: rest, p => if e.1 = p then some e.2 else storageRead rest p

/-- Modelled from the spec: `write(path, content) → Ack` upserts — it
overwrites the entry at `path` when present, otherwise appends a new entry
(sibling order is the order returned by the collaborator, spec §4.3). -/
def storageWrite (st : Storage) (path content : String) : Storage :=
  if path ∈ st.map Prod.fst then
    st.map (fun e => if e.1 = path then (path, content) else e)
  else
    st ++ [(path, content)]

/-- Modelled from the spec: `delete(path) → Ack` removes the entry. -/
def storageDelete (st : Storage) (path : String) : Storage :=
  st.filter (fun e => e.1 ≠ path)

/-- Modelled from the spec: `list(projectId)` returns the ordered paths;
`loadProjectFiles` stores this listing in the component's `files` state. -/
def storageList (st : Storage) : List String :=
  st.map Prod.fst

/-- The component's `useState` fields relevant to the orchestration core,
plus the modelled external storage that its `/api/files` calls hit. -/
structure IDEState where
  activeTasks : List AgentTask
  terminalOutput : List String
  files : List String
  currentFile : String
  fileContent : String
  expandedDirectories : Finset String
  storage : Storage
deriving DecidableEq

/-- `addToTerminal`: appends `[timestamp] message` to the terminal output. -/
def addToTerminal (out : List String) (now msg : String) : List String :=
  out ++ ["[" ++ now ++ "] " ++ msg]

/-- JavaScript's `String.prototype.trim`, used in the handlers' guards:
strips leading and trailing whitespace, here over the character list. -/
def strTrim (s : String) : String :=
  String.mk (((s.data.dropWhile Char.isWhitespace).reverse.dropWhile
    Char.isWhitespace).reverse)

/-- The per-task update performed inside `handleAgentProgress`'s
`prev.map`: a task whose `session_id` matches the event has its `progress`
field replaced by the event object; every other task is returned as is. -/
def updateTaskProgress (ev : ProgressEvent) (task : AgentTask) : AgentTask :=
  if task.session_id = ev.session_id then { task with progress := some ev } else task

/-- `handleAgentProgress(data)`: when `data.data` is present and its
`session_id` is truthy (a nonempty string), maps `updateTaskProgress` over
`activeTasks` and logs an agent-update line; otherwise does nothing. -/
def handleAgentProgress (data : Option ProgressEvent) (now : String) (s : IDEState) : IDEState :=
  match data with
  | none => s
  | some ev =>
    if ev.session_id = "" then s
    else
      { s with
        activeTasks := s.activeTasks.map (updateTaskProgress ev),
        terminalOutput := addToTerminal s.terminalOutput now
          ("🤖 Agent Update: " ++ ev.message ++ " (" ++ toString ev.progress ++ "%)") }

/-- `executeAgentTask`: guarded by a nonempty trimmed task input and a
current project; on an ok response from `/api/tasks`, prepends a new
`pending` task carrying the server-issued session id and logs a start
line. -/
def executeAgentTask (taskInput : String) (hasProject : Bool)
    (resp : FetchOutcome String) (selectedAgent now createdAt : String)
    (s : IDEState) : IDEState :=
  if strTrim taskInput = "" ∨ hasProject = false then s
  else
    match resp with
    | .ok sessionId =>
      let newTask : AgentTask :=
        { session_id := sessionId, task := taskInput, agent_type := selectedAgent,
          status := .pending, progress := none, result := none,
          created_at := createdAt, completed_at := none }
      { s with
        activeTasks := newTask :: s.activeTasks,
        terminalOutput := addToTerminal s.terminalOutput now
          ("🚀 Started " ++ selectedAgent ++ " task: " ++ taskInput.take 50 ++ "...") }
    | .notOk => s
    | .exn =>
      { s with
        terminalOutput := addToTerminal s.terminalOutput now "❌ Failed to create agent task" }

/-- Outcome branches of `createNewFile`, as the code distinguishes them:
the guard's early return, the `response.ok` success path, a non-ok response
(silently ignored by the code), and a thrown fetch (the `catch` branch).
There is no conflict branch: the function never checks whether the path
already exists. -/
inductive CreateOutcome where
  | created
  | skipped
  | backendError
  | networkError
deriving DecidableEq, Repr

/-- The fixed content `createNewFile` writes: `'// New file\n'`. -/
def defaultNewContent : String := "// New file\n"

/-- `createNewFile`: guarded by a nonempty trimmed file name and a current
project; issues `write(newFileName, '// New file\n')` to storage with no
existence check. On `response.ok` it logs a success line, reloads the file
listing and reports `created`; a non-ok response is silently ignored; a
thrown fetch logs a failure line. -/
def createNewFile (newFileName : String) (hasProject : Bool)
    (resp : FetchOutcome Unit) (now : String) (s : IDEState) :
    IDEState × List StorageOp × CreateOutcome :=
  if strTrim newFileName = "" ∨ hasProject = false then (s, [], .skipped)
  else
    match resp with
    | .ok _ =>
      let storage := storageWrite s.storage newFileName defaultNewContent
      ({ s with
          storage := storage,
          terminalOutput := addToTerminal s.terminalOutput now
            ("✅ Created file: " ++ newFileName),
          files := storageList storage },
       [StorageOp.write newFileName defaultNewContent], .created)
    | .notOk => (s, [StorageOp.write newFileName defaultNewContent], .backendError)
    | .exn =>
      ({ s with
          terminalOutput := addToTerminal s.terminalOutput now
            ("❌ Failed to create file: " ++ newFileName) },
       [StorageOp.write newFileName defaultNewContent], .networkError)

/-- `saveFile`: guarded by a current project and a current file; writes the
editor buffer `fileContent` to the current file's path. -/
def saveFile (hasProject : Bool) (resp : FetchOutcome Unit) (now : String)
    (s : IDEState) : IDEState × List StorageOp :=
  if hasProject = false ∨ s.currentFile = "" then (s, [])
  else
    match resp with
    | .ok _ =>
      ({ s with
          storage := storageWrite s.storage s.currentFile s.fileContent,
          terminalOutput := addToTerminal s.terminalOutput now
            ("✅ Saved: " ++ s.currentFile) },
       [StorageOp.write s.currentFile s.fileContent])
    | .notOk =>
      ({ s with
          terminalOutput := addToTerminal s.terminalOutput now
            ("❌ Failed to save: " ++ s.currentFile) },
       [StorageOp.write s.currentFile s.fileContent])
    | .exn =>
      ({ s with
          terminalOutput := addToTerminal s.terminalOutput now
            ("❌ Save error: " ++ s.currentFile) },
       [StorageOp.write s.currentFile s.fileContent])

/-- `deleteFile`: guarded by a current project and the upstream `confirm`
prompt; issues the delete, and only on `response.ok` removes the node
(reload of the listing) and, when the deleted path is the currently open
file, clears `currentFile` and `fileContent`. -/
def deleteFile (filePath : String) (hasProject confirmDelete : Bool)
    (resp : FetchOutcome Unit) (now : String) (s : IDEState) :
    IDEState × List StorageOp :=
  if hasProject = false ∨ confirmDelete = false then (s, [])
  else
    match resp with
    | .ok _ =>
      let storage := storageDelete s.storage filePath
      let s1 := { s with
        storage := storage,
        terminalOutput := addToTerminal s.terminalOutput now
          ("🗑️ Deleted file: " ++ filePath),
        files := storageList storage }
      if s.currentFile = filePath then
        ({ s1 with currentFile := "", fileContent := "" }, [StorageOp.delete filePath])
      else (s1, [StorageOp.delete filePath])
    | .notOk => (s, [StorageOp.delete filePath])
    | .exn =>
      ({ s with
          terminalOutput := addToTerminal s.terminalOutput now
            ("❌ Failed to delete file: " ++ filePath) },
       [StorageOp.delete filePath])

/-- `renameFile(oldPath, newName)`: guarded by a current project and a
nonempty trimmed new name; then read old content → write new path → delete
old path, each step gated on the previous response being ok. A thrown fetch
at any step jumps to the `catch` branch, which logs a failure line; a non-ok
response at the read or write step is silently ignored (the code has no
`else`). The delete response is never inspected: even a non-ok delete is
followed by the success log, listing reload, and the open-file retarget.
The second component records the storage requests actually issued. -/
def renameFile (oldPath newName : String) (hasProject : Bool)
    (readRes : FetchOutcome String) (writeRes deleteRes : FetchOutcome Unit)
    (now : String) (s : IDEState) : IDEState × List StorageOp :=
  if hasProject = false ∨ strTrim newName = "" then (s, [])
  else
    match readRes with
    | .notOk => (s, [StorageOp.read oldPath])
    | .exn =>
      ({ s with
          terminalOutput := addToTerminal s.terminalOutput now
            ("❌ Failed to rename file: " ++ oldPath) },
       [StorageOp.read oldPath])
    | .ok content =>
      match writeRes with
      | .notOk => (s, [StorageOp.read oldPath, StorageOp.write newName content])
      | .exn =>
        ({ s with
            terminalOutput := addToTerminal s.terminalOutput now
              ("❌ Failed to rename file: " ++ oldPath) },
         [StorageOp.read oldPath, StorageOp.write newName content])
      | .ok _ =>
        let st1 := storageWrite s.storage newName content
        match deleteRes with
        | .exn =>
          ({ s with
              storage := st1,
              terminalOutput := addToTerminal s.terminalOutput now
                ("❌ Failed to rename file: " ++ oldPath) },
           [StorageOp.read oldPath, StorageOp.write newName content,
            StorageOp.delete oldPath])
        | .ok _ =>
          let st2 := storageDelete st1 oldPath
          let s1 := { s with
            storage := st2,
            terminalOutput := addToTerminal s.terminalOutput now
              ("📝 Renamed: " ++ oldPath ++ " → " ++ newName),
            files := storageList st2 }
          ((if s.currentFile = oldPath then { s1 with currentFile := newName } else s1),
           [StorageOp.read oldPath, StorageOp.write newName content,
            StorageOp.delete oldPath])
        | .notOk =>
          let s1 := { s with
            storage := st1,
            terminalOutput := addToTerminal s.terminalOutput now
              ("📝 Renamed: " ++ oldPath ++ " → " ++ newName),
            files := storageList st1 }
          ((if s.currentFile = oldPath then { s1 with currentFile := newName } else s1),
           [StorageOp.read oldPath, StorageOp.write newName content,
            StorageOp.delete oldPath])

/-- `toggleDirectory`: flips membership of `dirPath` in the
`expandedDirectories` set and logs a collapse/expand line. The second
component is the list of storage requests issued — none. -/
def toggleDirectory (dirPath now : String) (s : IDEState) :
    IDEState × List StorageOp :=
  if dirPath ∈ s.expandedDirectories then
    ({ s with
        expandedDirectories := s.expandedDirectories.erase dirPath,
        terminalOutput := addToTerminal s.terminalOutput now
          ("📁 Collapsed: " ++ dirPath) }, [])
  else
    ({ s with
        expandedDirectories := insert dirPath s.expandedDirectories,
        terminalOutput := addToTerminal s.terminalOutput now
          ("📂 Expanded: " ++ dirPath) }, [])

/-- Side effects the WebSocket lifecycle callbacks can perform. -/
inductive SocketAction where
  | consoleLog (msg : String)
  | terminalLog (msg : String)
  | connectSocket (url : String)
deriving DecidableEq, Repr

/-- Whether a socket action opens a (new) WebSocket connection. -/
def SocketAction.isConnectAttempt : SocketAction → Bool
  | .connectSocket _ => true
  | _ => false

/-- The effects of the `socketRef.current.onclose` callback, in order:
a console log and a terminal log. The handler creates no new WebSocket —
the connection is only opened once, in the mount `useEffect`. -/
def onCloseActions : List SocketAction :=
  [SocketAction.consoleLog "Disconnected from backend",
   SocketAction.terminalLog "❌ Disconnected from backend"]

/-- The `onclose` callback as a state transformer: appends the disconnect
line to the terminal and touches nothing else. -/
def onCloseHandler (now : String) (s : IDEState) : IDEState :=
  { s with
    terminalOutput := addToTerminal s.terminalOutput now "❌ Disconnected from backend" }

/-- The slice of the Zustand store state that `closeFile` reads and
writes (`src/store/waverider-store.ts`). -/
structure EditorState where
  openFiles : List String
  activeFile : Option String
deriving DecidableEq, Repr

/-- `closeFile` from the store: filters `filePath` out of `openFiles`; when
the closed file was active, the new active file is
`newOpenFiles[newOpenFiles.length - 1]` if the remainder is nonempty and
`null` otherwise; otherwise the active file is kept. -/
def closeFile (filePath : String) (s : EditorState) : EditorState :=
  let newOpenFiles := s.openFiles.filter (fun f => f ≠ filePath)
  let newActiveFile :=
    if s.activeFile = some filePath then
      if 0 < newOpenFiles.length then newOpenFiles.getLast? else none
    else s.activeFile
  { openFiles := newOpenFiles, activeFile := newActiveFile }

end WaveRider

namespace WaveRider.Ex

/-- A task already completed at 100%, with a stored result. -/
def doneTask : AgentTask :=
  { session_id := "s1", task := "refactor module X", agent_type := "coder",
    status := .completed,
    progress := some { session_id := "s1", progress := 100, status := "done",
                       message := "finished", timestamp := "t1" },
    result := some "ok", created_at := "t0", completed_at := some "t1" }

/-- A late progress event (percentage 10) for the completed task. -/
def lateEvent : ProgressEvent :=
  { session_id := "s1", progress := 10, status := "executing",
    message := "late", timestamp := "t2" }

/-- An empty component state holding just one given task list. -/
def stateWith (tasks : List AgentTask) : IDEState :=
  { activeTasks := tasks, terminalOutput := [], files := [],
    currentFile := "", fileContent := "", expandedDirectories := ∅,
    storage := [] }

/-- A freshly created, still pending task. -/
def pendingTask : AgentTask :=
  { session_id := "s2", task := "write tests", agent_type := "debugger",
    status := .pending, progress := none, result := none,
    created_at := "t0", completed_at := none }

/-- A first progress event for the pending task. -/
def firstEvent : ProgressEvent :=
  { session_id := "s2", progress := 40, status := "executing",
    message := "generating", timestamp := "t1" }

/-- An out-of-range progress event (percentage 150) for the pending task. -/
def bigEvent : ProgressEvent :=
  { session_id := "s2", progress := 150, status := "executing",
    message := "overflow", timestamp := "t2" }

/-- A regressing progress event (percentage 20 after 40). -/
def smallEvent : ProgressEvent :=
  { session_id := "s2", progress := 20, status := "executing",
    message := "regress", timestamp := "t3" }

/-- State reached by saving buffer `"hi"` to `a.txt` on an empty project:
storage holds `a.txt ↦ "hi"`. -/
def stateWithAtxt : IDEState :=
  (saveFile true (.ok ()) "t0"
    { activeTasks := [], terminalOutput := [], files := ["a.txt"],
      currentFile := "a.txt", fileContent := "hi",
      expandedDirectories := ∅, storage := [] }).1

/-- State with a single stored file `old.txt ↦ "data"`. -/
def stateWithOld : IDEState :=
  { activeTasks := [], terminalOutput := [], files := ["old.txt"],
    currentFile := "", fileContent := "", expandedDirectories := ∅,
    storage := [("old.txt", "data")] }

/-- The state after the pending task received its first progress event
(percentage 40). -/
def afterFirst : IDEState :=
  handleAgentProgress (some firstEvent) "t1" (stateWith [pendingTask])

/-- A progress event whose session id matches no task the client created. -/
def unknownEvent : ProgressEvent :=
  { session_id := "never-created", progress := 55, status := "executing",
    message := "orphan", timestamp := "t9" }

end WaveRider.Ex

namespace WaveRider

/-! ## Helper lemmas -/

theorem updateTaskProgress_status (ev : ProgressEvent) (task : AgentTask) :
    (updateTaskProgress ev task).status = task.status := by
  unfold updateTaskProgress
  split <;> rfl

theorem updateTaskProgress_result (ev : ProgressEvent) (task : AgentTask) :
    (updateTaskProgress ev task).result = task.result := by
  unfold updateTaskProgress
  split <;> rfl

theorem updateTaskProgress_of_other (ev : ProgressEvent) (task : AgentTask)
    (h : task.session_id ≠ ev.session_id) : updateTaskProgress ev task = task := by
  unfold updateTaskProgress
  simp [h]

theorem updateTaskProgress_of_match (ev : ProgressEvent) (task : AgentTask)
    (h : task.session_id = ev.session_id) :
    updateTaskProgress ev task = { task with progress := some ev } := by
  unfold updateTaskProgress
  simp [h]

theorem handleAgentProgress_activeTasks (ev : ProgressEvent) (now : String) (s : IDEState)
    (h : ev.session_id ≠ "") :
    (handleAgentProgress (some ev) now s).activeTasks
      = s.activeTasks.map (updateTaskProgress ev) := by
  unfold handleAgentProgress
  simp [h]

/-! ## Claims about progress-event handling -/

/-- C1 counterexample: a task completed at percentage 100, with a stored
result, receives a later progress event with percentage 10 for its own
session id. The event is not discarded: the stored percentage becomes 10,
not 100. -/
theorem terminal_progress_event_not_discarded :
    ((handleAgentProgress (some Ex.lateEvent) "t2" (Ex.stateWith [Ex.doneTask])).activeTasks.map
        (fun t => t.progress.map ProgressEvent.progress)) = [some 10]
      ∧ ¬ ((10 : Int) = 100) := by
  exact ⟨rfl, by decide⟩

/-- C1 (amended): delivering a further progress event to a task in a
terminal state leaves the stored status and result unchanged, but the event
is not discarded — the stored progress record is overwritten with the
event, so its percentage becomes the event's percentage. -/
theorem handleAgentProgress_terminal_keeps_status_result (ev : ProgressEvent)
    (now : String) (s : IDEState) (h : ev.session_id ≠ "") :
    (handleAgentProgress (some ev) now s).activeTasks
        = s.activeTasks.map (updateTaskProgress ev)
      ∧ ∀ task ∈ s.activeTasks, task.status.isTerminal = true →
          task.session_id = ev.session_id →
          (updateTaskProgress ev task).status = task.status
            ∧ (updateTaskProgress ev task).result = task.result
            ∧ (updateTaskProgress ev task).progress = some ev := by
  refine ⟨handleAgentProgress_activeTasks ev now s h, ?_⟩
  intro task _ _ hmatch
  refine ⟨updateTaskProgress_status ev task, updateTaskProgress_result ev task, ?_⟩
  rw [updateTaskProgress_of_match ev task hmatch]

/-- Witness for the C1 theorem at the completed task and its late event. -/
theorem handleAgentProgress_terminal_keeps_status_result_witness :
    (handleAgentProgress (some Ex.lateEvent) "t2" (Ex.stateWith [Ex.doneTask])).activeTasks
        = (Ex.stateWith [Ex.doneTask]).activeTasks.map (updateTaskProgress Ex.lateEvent)
      ∧ ∀ task ∈ (Ex.stateWith [Ex.doneTask]).activeTasks, task.status.isTerminal = true →
          task.session_id = Ex.lateEvent.session_id →
          (updateTaskProgress Ex.lateEvent task).status = task.status
            ∧ (updateTaskProgress Ex.lateEvent task).result = task.result
            ∧ (updateTaskProgress Ex.lateEvent task).progress = some Ex.lateEvent :=
  handleAgentProgress_terminal_keeps_status_result Ex.lateEvent "t2"
    (Ex.stateWith [Ex.doneTask]) (by decide)

/-- C2 counterexample: a pending task receives its first progress event,
yet its status remains `pending` — it is not promoted to `running`. -/
theorem pending_task_not_promoted :
    ((handleAgentProgress (some Ex.firstEvent) "t1"
        (executeAgentTask "write tests" true (.ok "s2") "debugger" "t0" "t0"
          (Ex.stateWith []))).activeTasks.map AgentTask.status)
        = [TaskStatus.pending]
      ∧ TaskStatus.pending ≠ TaskStatus.running := by
  exact ⟨rfl, by decide⟩

/-- C2 (amended): `handleAgentProgress` never changes any task's status —
in particular a pending task stays pending after its first progress event;
only the stored progress record is updated. -/
theorem handleAgentProgress_preserves_status (data : Option ProgressEvent)
    (now : String) (s : IDEState) :
    (handleAgentProgress data now s).activeTasks.map AgentTask.status
      = s.activeTasks.map AgentTask.status := by
  cases data with
  | none => rfl
  | some ev =>
    unfold handleAgentProgress
    by_cases h : ev.session_id = ""
    · simp [h]
    · simp only [h, if_false, List.map_map]
      exact List.map_congr_left fun t _ => updateTaskProgress_status ev t

/-- C3 counterexample: the stored percentage is neither clamped nor
monotone: an event with percentage 150 is stored as 150 (outside [0,100]),
and after events with percentages 40 then 20 the stored percentage is 20,
a strict decrease without any reset. -/
theorem percentage_not_clamped_not_monotone :
    ((handleAgentProgress (some Ex.bigEvent) "t2" Ex.afterFirst).activeTasks.map
        (fun t => t.progress.map ProgressEvent.progress)) = [some 150]
      ∧ ¬ ((150 : Int) ≤ 100)
      ∧ ((handleAgentProgress (some Ex.smallEvent) "t2" Ex.afterFirst).activeTasks.map
          (fun t => t.progress.map ProgressEvent.progress)) = [some 20]
      ∧ (20 : Int) < 40 := by
  exact ⟨rfl, by decide, rfl, by decide⟩

/-- C3 (amended): for a task whose session id matches the event, the stored
percentage after `handleAgentProgress` is the event's percentage verbatim —
no clamping to [0,100] and no monotonicity across updates is enforced. -/
theorem handleAgentProgress_stores_raw_percentage (ev : ProgressEvent)
    (now : String) (s : IDEState) (h : ev.session_id ≠ "") :
    (handleAgentProgress (some ev) now s).activeTasks.map
        (fun t => t.progress.map ProgressEvent.progress)
      = s.activeTasks.map (fun t =>
          if t.session_id = ev.session_id then some ev.progress
          else t.progress.map ProgressEvent.progress) := by
  rw [handleAgentProgress_activeTasks ev now s h, List.map_map]
  refine List.map_congr_left fun t _ => ?_
  by_cases hm : t.session_id = ev.session_id
  · simp [Function.comp, updateTaskProgress_of_match ev t hm, hm]
  · simp [Function.comp, updateTaskProgress_of_other ev t hm, hm]

/-- Witness for the C3 theorem at an out-of-range event. -/
theorem handleAgentProgress_stores_raw_percentage_witness :
    (handleAgentProgress (some Ex.bigEvent) "t2" Ex.afterFirst).activeTasks.map
        (fun t => t.progress.map ProgressEvent.progress)
      = Ex.afterFirst.activeTasks.map (fun t =>
          if t.session_id = Ex.bigEvent.session_id then some Ex.bigEvent.progress
          else t.progress.map ProgressEvent.progress) :=
  handleAgentProgress_stores_raw_percentage Ex.bigEvent "t2" Ex.afterFirst (by decide)

/-- C7: a progress event whose session id matches no task leaves every task
record unchanged (and touches no file state); the handler only appends a
terminal-log line, and raises no error. -/
theorem handleAgentProgress_unknown_session (ev : ProgressEvent) (now : String)
    (s : IDEState) (h : ∀ t ∈ s.activeTasks, t.session_id ≠ ev.session_id) :
    (handleAgentProgress (some ev) now s).activeTasks = s.activeTasks
      ∧ (handleAgentProgress (some ev) now s).files = s.files
      ∧ (handleAgentProgress (some ev) now s).currentFile = s.currentFile
      ∧ (handleAgentProgress (some ev) now s).fileContent = s.fileContent
      ∧ (handleAgentProgress (some ev) now s).storage = s.storage := by
  unfold handleAgentProgress
  by_cases hev : ev.session_id = ""
  · simp [hev]
  · have hmap : s.activeTasks.map (updateTaskProgress ev) = s.activeTasks :=
      (List.map_congr_left fun t ht =>
        updateTaskProgress_of_other ev t (h t ht)).trans (List.map_id s.activeTasks)
    simp [hev, hmap]

/-- Witness for the C7 theorem: an event for a session the client never
created, delivered to a state holding one pending task. -/
theorem handleAgentProgress_unknown_session_witness :
    (handleAgentProgress (some Ex.unknownEvent) "t9"
          (Ex.stateWith [Ex.pendingTask])).activeTasks
        = (Ex.stateWith [Ex.pendingTask]).activeTasks
      ∧ (handleAgentProgress (some Ex.unknownEvent) "t9"
          (Ex.stateWith [Ex.pendingTask])).files = (Ex.stateWith [Ex.pendingTask]).files
      ∧ (handleAgentProgress (some Ex.unknownEvent) "t9"
          (Ex.stateWith [Ex.pendingTask])).currentFile
        = (Ex.stateWith [Ex.pendingTask]).currentFile
      ∧ (handleAgentProgress (some Ex.unknownEvent) "t9"
          (Ex.stateWith [Ex.pendingTask])).fileContent
        = (Ex.stateWith [Ex.pendingTask]).fileContent
      ∧ (handleAgentProgress (some Ex.unknownEvent) "t9"
          (Ex.stateWith [Ex.pendingTask])).storage = (Ex.stateWith [Ex.pendingTask]).storage :=
  handleAgentProgress_unknown_session Ex.unknownEvent "t9"
    (Ex.stateWith [Ex.pendingTask]) (by decide)

end WaveRider

namespace WaveRider

/-! ## Storage lemmas -/

theorem storageRead_map_update (st : Storage) (p c : String)
    (h : p ∈ st.map Prod.fst) :
    storageRead (st.map (fun e => if e.1 = p then (p, c) else e)) p = some c := by
  induction st with
  | nil => simp at h
  | cons e rest ih =>
    by_cases he : e.1 = p
    · simp [storageRead, he]
    · have hrest : p ∈ rest.map Prod.fst := by
        rcases List.mem_cons.mp h with h1 | h1
        · exact absurd h1.symm he
        · exact h1
      simp [storageRead, he]
      exact ih hrest

theorem storageRead_append_self (st : Storage) (p c : String)
    (h : p ∉ st.map Prod.fst) :
    storageRead (st ++ [(p, c)]) p = some c := by
  induction st with
  | nil => simp [storageRead]
  | cons e rest ih =>
    have he : e.1 ≠ p := fun hq => h (by simp [hq])
    simp [storageRead, he]
    exact ih fun hm => h (by simp [hm])

theorem storageRead_write_self (st : Storage) (p c : String) :
    storageRead (storageWrite st p c) p = some c := by
  unfold storageWrite
  by_cases hmem : p ∈ st.map Prod.fst
  · simpa [hmem] using storageRead_map_update st p c hmem
  · simpa [hmem] using storageRead_append_self st p c hmem

theorem storageList_write_of_mem (st : Storage) (p c : String)
    (h : p ∈ storageList st) :
    storageList (storageWrite st p c) = storageList st := by
  unfold storageWrite storageList
  simp only [storageList] at h
  rw [if_pos h, List.map_map]
  exact List.map_congr_left fun e _ => by by_cases he : e.1 = p <;> simp [Function.comp, he]

/-! ## Claims about file operations -/

/-- C4 counterexample: with `a.txt ↦ "hi"` already stored (written by
`saveFile`), a second create of `a.txt` does not fail with `Conflict`: it
takes the success branch, overwrites the content with the fixed
`'// New file\n'` template, and the listing still holds one `a.txt` node —
whose content is no longer `"hi"`. -/
theorem create_existing_not_conflict :
    (createNewFile "a.txt" true (.ok ()) "t1" Ex.stateWithAtxt).2.2 = CreateOutcome.created
      ∧ storageRead (createNewFile "a.txt" true (.ok ()) "t1" Ex.stateWithAtxt).1.storage "a.txt"
          = some defaultNewContent
      ∧ ¬ (defaultNewContent = "hi")
      ∧ (createNewFile "a.txt" true (.ok ()) "t1" Ex.stateWithAtxt).1.files.count "a.txt" = 1 := by
  refine ⟨rfl, rfl, by decide, rfl⟩

/-- C4 (amended): `createNewFile` performs no existence check and has no
conflict failure: creating a path that already exists takes the success
branch again, the issued write overwrites the stored content with the fixed
`'// New file\n'` template, and (for per-path-unique storage) the reloaded
listing still contains exactly one node for the path. -/
theorem createNewFile_existing_no_conflict (name now : String) (s : IDEState)
    (hname : ¬ strTrim name = "") (hmem : name ∈ storageList s.storage)
    (hnodup : (storageList s.storage).Nodup) :
    (createNewFile name true (.ok ()) now s).2.2 = CreateOutcome.created
      ∧ storageRead (createNewFile name true (.ok ()) now s).1.storage name
          = some defaultNewContent
      ∧ (createNewFile name true (.ok ()) now s).1.files.count name = 1 := by
  unfold createNewFile
  rw [if_neg (by simp [hname])]
  refine ⟨rfl, ?_, ?_⟩
  · exact storageRead_write_self s.storage name defaultNewContent
  · show (storageList (storageWrite s.storage name defaultNewContent)).count name = 1
    rw [storageList_write_of_mem s.storage name defaultNewContent hmem]
    exact List.count_eq_one_of_mem hnodup hmem

/-- Witness for the C4 theorem at the `a.txt ↦ "hi"` state. -/
theorem createNewFile_existing_no_conflict_witness :
    (createNewFile "a.txt" true (.ok ()) "t1" Ex.stateWithAtxt).2.2 = CreateOutcome.created
      ∧ storageRead (createNewFile "a.txt" true (.ok ()) "t1" Ex.stateWithAtxt).1.storage "a.txt"
          = some defaultNewContent
      ∧ (createNewFile "a.txt" true (.ok ()) "t1" Ex.stateWithAtxt).1.files.count "a.txt" = 1 :=
  createNewFile_existing_no_conflict "a.txt" "t1" Ex.stateWithAtxt
    (by decide) (by decide) (by decide)

/-- C5 counterexample: a rename whose write step comes back as an error
response leaves the old node present and unmodified and never issues the
delete — but surfaces no error at all: the terminal log stays empty. -/
theorem rename_write_failed_is_silent :
    storageRead (renameFile "old.txt" "new.txt" true (.ok "data") .notOk (.ok ()) "t1"
          Ex.stateWithOld).1.storage "old.txt" = some "data"
      ∧ ((renameFile "old.txt" "new.txt" true (.ok "data") .notOk (.ok ()) "t1"
          Ex.stateWithOld).2.contains (StorageOp.delete "old.txt")) = false
      ∧ (renameFile "old.txt" "new.txt" true (.ok "data") .notOk (.ok ()) "t1"
          Ex.stateWithOld).1.terminalOutput = [] := by
  refine ⟨rfl, by decide, rfl⟩

/-- C5 (amended): when the rename's write step fails, the original node
remains untouched and the delete is never issued; but an error is surfaced
only when the write throws (network failure) — a write that completes with
an error response is silently ignored, leaving the terminal log unchanged. -/
theorem renameFile_write_failed (oldPath newName content now : String)
    (deleteRes : FetchOutcome Unit) (s : IDEState) (hname : ¬ strTrim newName = "") :
    (renameFile oldPath newName true (.ok content) .notOk deleteRes now s).1 = s
      ∧ (renameFile oldPath newName true (.ok content) .notOk deleteRes now s).2
          = [StorageOp.read oldPath, StorageOp.write newName content]
      ∧ (renameFile oldPath newName true (.ok content) .exn deleteRes now s).1.storage
          = s.storage
      ∧ (renameFile oldPath newName true (.ok content) .exn deleteRes now s).1.files = s.files
      ∧ (renameFile oldPath newName true (.ok content) .exn deleteRes now s).1.terminalOutput
          = addToTerminal s.terminalOutput now ("❌ Failed to rename file: " ++ oldPath)
      ∧ (renameFile oldPath newName true (.ok content) .exn deleteRes now s).2
          = [StorageOp.read oldPath, StorageOp.write newName content] := by
  unfold renameFile
  simp [hname]

/-- Witness for the C5 theorem at the `old.txt ↦ "data"` state. -/
theorem renameFile_write_failed_witness :
    (renameFile "old.txt" "new.txt" true (.ok "data") .notOk (.ok ()) "t1"
          Ex.stateWithOld).1 = Ex.stateWithOld
      ∧ (renameFile "old.txt" "new.txt" true (.ok "data") .notOk (.ok ()) "t1"
          Ex.stateWithOld).2
          = [StorageOp.read "old.txt", StorageOp.write "new.txt" "data"]
      ∧ (renameFile "old.txt" "new.txt" true (.ok "data") .exn (.ok ()) "t1"
          Ex.stateWithOld).1.storage = Ex.stateWithOld.storage
      ∧ (renameFile "old.txt" "new.txt" true (.ok "data") .exn (.ok ()) "t1"
          Ex.stateWithOld).1.files = Ex.stateWithOld.files
      ∧ (renameFile "old.txt" "new.txt" true (.ok "data") .exn (.ok ()) "t1"
          Ex.stateWithOld).1.terminalOutput
          = addToTerminal Ex.stateWithOld.terminalOutput "t1"
              ("❌ Failed to rename file: " ++ "old.txt")
      ∧ (renameFile "old.txt" "new.txt" true (.ok "data") .exn (.ok ()) "t1"
          Ex.stateWithOld).2
          = [StorageOp.read "old.txt", StorageOp.write "new.txt" "data"] :=
  renameFile_write_failed "old.txt" "new.txt" "data" "t1" (.ok ()) Ex.stateWithOld (by decide)

/-- C6: an acknowledged delete of the currently open file clears the
open-file reference and the displayed content; an acknowledged delete of
any other path leaves both unchanged. -/
theorem deleteFile_clears_current_file (filePath now : String) (s : IDEState) :
    ((deleteFile filePath true true (.ok ()) now s).1.currentFile
        = if s.currentFile = filePath then "" else s.currentFile)
      ∧ ((deleteFile filePath true true (.ok ()) now s).1.fileContent
        = if s.currentFile = filePath then "" else s.fileContent) := by
  unfold deleteFile
  by_cases hc : s.currentFile = filePath <;> simp [hc]

/-- C8 counterexample: the `onclose` callback's effects are exactly a
console log and a terminal log — it makes no reconnection attempt (with or
without backoff). -/
theorem onclose_no_reconnect_attempt :
    onCloseActions.any SocketAction.isConnectAttempt = false := by
  decide

/-- C8 (amended): on channel disconnect the client emits a locally
observable terminal-log entry and rolls back no task state, but it does not
attempt reconnection: the `onclose` callback performs only the two log
actions, and a socket is opened only once, on mount. -/
theorem onCloseHandler_logs_only (now : String) (s : IDEState) :
    (onCloseHandler now s).activeTasks = s.activeTasks
      ∧ (onCloseHandler now s).terminalOutput
          = addToTerminal s.terminalOutput now "❌ Disconnected from backend"
      ∧ onCloseActions.any SocketAction.isConnectAttempt = false := by
  exact ⟨rfl, rfl, by decide⟩

/-- C9: `toggleDirectory` issues no storage request, flips the expansion
flag of the given path, and applying it twice restores the original
expansion state of every directory. -/
theorem toggleDirectory_involutive (dirPath now1 now2 : String) (s : IDEState) :
    (toggleDirectory dirPath now1 s).2 = []
      ∧ ((dirPath ∈ (toggleDirectory dirPath now1 s).1.expandedDirectories)
          ↔ dirPath ∉ s.expandedDirectories)
      ∧ (toggleDirectory dirPath now2
            (toggleDirectory dirPath now1 s).1).1.expandedDirectories
        = s.expandedDirectories := by
  unfold toggleDirectory
  by_cases h : dirPath ∈ s.expandedDirectories
  · simp [h, Finset.not_mem_erase, Finset.insert_erase]
  · simp [h, Finset.mem_insert_self, Finset.erase_insert]

/-- C10: `closeFile` removes the path from the open-files list; when the
closed path was active, the new active file is the last remaining open
file, or none when no open files remain; otherwise the active file is
unchanged. -/
theorem closeFile_removes_and_retargets (filePath : String) (s : EditorState) :
    filePath ∉ (closeFile filePath s).openFiles
      ∧ (closeFile filePath s).openFiles = s.openFiles.filter (fun f => f ≠ filePath)
      ∧ (closeFile filePath s).activeFile
        = (if s.activeFile = some filePath
            then (s.openFiles.filter (fun f => f ≠ filePath)).getLast?
            else s.activeFile) := by
  unfold closeFile
  refine ⟨?_, rfl, ?_⟩
  · simp [List.mem_filter]
  · by_cases ha : s.activeFile = some filePath
    · simp only [ha, if_true]
      cases hl : s.openFiles.filter (fun f => f ≠ filePath) with
      | nil => simp [hl]
      | cons x xs => simp [hl]
    · simp [ha]

end WaveRider
